import Mathlib

/-!
# Verification of the inceptor crash-ingestion core

A shallow embedding, in Lean 4, of the parts of the `base-go/inceptor`
crash-report service that the specification's testable properties talk
about:

* the fingerprinting algorithm (`internal/core/grouper.go`), including an
  executable SHA-256 (the Go code hashes with `crypto/sha256` and keeps the
  first 16 hex characters);
* group upsert (`GetOrCreateGroup` in `internal/storage/sqlite.go`),
  modelled over an in-memory table in rowid order;
* the retention sweep (`internal/core/retention.go`,
  `DeleteCrashesOlderThan`, `DeleteOldLogs`), with time modelled as
  seconds since the Unix epoch and blob date partitions as day numbers;
* alert rule matching and the webhook sink (`internal/core/alerter.go`);
* the submission pipeline (`SubmitCrash` handler) and the bounded alert
  queue;
* the per-app stats top-errors query (`GetAppStats`), with the SQL
  `ORDER BY occurrence_count DESC LIMIT 5` modelled as a stable sort on
  scan order.

Machine integers are modelled as `Nat` with explicit reduction modulo
`2 ^ 32` where the Go code relies on 32-bit wrapping (only inside SHA-256).
-/

namespace Inceptor

/-! ## 32-bit word arithmetic over `Nat`

SHA-256 works on 32-bit words.  Go's `uint32` arithmetic is modelled as
`Nat` kept below `2 ^ 32` by explicit `% 4294967296`. -/

/-- `2 ^ 32`, the modulus of Go `uint32` arithmetic. -/
def w32 : Nat := 4294967296

/-- Wrapping 32-bit addition. -/
def add32 (a b : Nat) : Nat := (a + b) % w32

/-- Right-rotation of a 32-bit word by `n` bits (for `x < 2 ^ 32`). -/
def rotr32 (n x : Nat) : Nat := (x >>> n) ||| ((x <<< (32 - n)) % w32)

/-- Bitwise complement on 32 bits. -/
def not32 (x : Nat) : Nat := Nat.xor x (w32 - 1)

/-- SHA-256 `Ch(x,y,z) = (x ∧ y) ⊕ (¬x ∧ z)`. -/
def ch32 (x y z : Nat) : Nat := Nat.xor (Nat.land x y) (Nat.land (not32 x) z)

/-- SHA-256 `Maj(x,y,z) = (x ∧ y) ⊕ (x ∧ z) ⊕ (y ∧ z)`. -/
def maj32 (x y z : Nat) : Nat :=
  Nat.xor (Nat.xor (Nat.land x y) (Nat.land x z)) (Nat.land y z)

/-- SHA-256 `Σ₀`. -/
def bsig0 (x : Nat) : Nat := Nat.xor (Nat.xor (rotr32 2 x) (rotr32 13 x)) (rotr32 22 x)

/-- SHA-256 `Σ₁`. -/
def bsig1 (x : Nat) : Nat := Nat.xor (Nat.xor (rotr32 6 x) (rotr32 11 x)) (rotr32 25 x)

/-- SHA-256 `σ₀`. -/
def ssig0 (x : Nat) : Nat := Nat.xor (Nat.xor (rotr32 7 x) (rotr32 18 x)) (x >>> 3)

/-- SHA-256 `σ₁`. -/
def ssig1 (x : Nat) : Nat := Nat.xor (Nat.xor (rotr32 17 x) (rotr32 19 x)) (x >>> 10)

/-- The 64 SHA-256 round constants `K₀ … K₆₃` (FIPS 180-4 §4.2.2),
written in decimal. -/
def k256 : List Nat :=
  [1116352408, 1899447441, 3049323471, 3921009573, 961987163,
   1508970993, 2453635748, 2870763221, 3624381080, 310598401,
   607225278, 1426881987, 1925078388, 2162078206, 2614888103,
   3248222580, 3835390401, 4022224774, 264347078, 604807628,
   770255983, 1249150122, 1555081692, 1996064986, 2554220882,
   2821834349, 2952996808, 3210313671, 3336571891, 3584528711,
   113926993, 338241895, 666307205, 773529912, 1294757372,
   1396182291, 1695183700, 1986661051, 2177026350, 2456956037,
   2730485921, 2820302411, 3259730800, 3345764771, 3516065817,
   3600352804, 4094571909, 275423344, 430227734, 506948616,
   659060556, 883997877, 958139571, 1322822218, 1537002063,
   1747873779, 1955562222, 2024104815, 2227730452, 2361852424,
   2428436474, 2756734187, 3204031479, 3329325298]

/-- The running SHA-256 state: eight 32-bit words. -/
structure Hash8 where
  a : Nat
  b : Nat
  c : Nat
  d : Nat
  e : Nat
  f : Nat
  g : Nat
  h : Nat
deriving DecidableEq

/-- The SHA-256 initial hash value `H⁽⁰⁾` (FIPS 180-4 §5.3.3), written
in decimal. -/
def sha256Init : Hash8 :=
  ⟨1779033703, 3144134277, 1013904242, 2773480762,
   1359893119, 2600822924, 528734635, 1541459225⟩

/-- Extend the 16 words of one block to the 64-entry message schedule
`W₀ … W₆₃`. -/
def msgSchedule (block : List Nat) : List Nat :=
  (List.range 48).foldl
    (fun ws _ =>
      let n := ws.length
      ws ++ [add32 (add32 (ssig1 (ws.getD (n - 2) 0)) (ws.getD (n - 7) 0))
               (add32 (ssig0 (ws.getD (n - 15) 0)) (ws.getD (n - 16) 0))])
    block

/-- One SHA-256 round: fold the pair `(Kₜ, Wₜ)` into the working state. -/
def sha256Round (st : Hash8) (kw : Nat × Nat) : Hash8 :=
  let t1 := add32 st.h (add32 (bsig1 st.e) (add32 (ch32 st.e st.f st.g) (add32 kw.1 kw.2)))
  let t2 := add32 (bsig0 st.a) (maj32 st.a st.b st.c)
  ⟨add32 t1 t2, st.a, st.b, st.c, add32 st.d t1, st.e, st.f, st.g⟩

/-- Process one 64-byte block (given as its 16 big-endian words). -/
def sha256Compress (st : Hash8) (block : List Nat) : Hash8 :=
  let w := msgSchedule block
  let s := (k256.zip w).foldl sha256Round st
  ⟨add32 st.a s.a, add32 st.b s.b, add32 st.c s.c, add32 st.d s.d,
   add32 st.e s.e, add32 st.f s.f, add32 st.g s.g, add32 st.h s.h⟩

/-- Big-endian 8-byte serialization of a 64-bit length field. -/
def u64be (x : Nat) : List Nat :=
  [(x >>> 56) % 256, (x >>> 48) % 256, (x >>> 40) % 256, (x >>> 32) % 256,
   (x >>> 24) % 256, (x >>> 16) % 256, (x >>> 8) % 256, x % 256]

/-- Big-endian 4-byte serialization of a 32-bit word. -/
def u32be (x : Nat) : List Nat :=
  [(x >>> 24) % 256, (x >>> 16) % 256, (x >>> 8) % 256, x % 256]

/-- SHA-256 padding (FIPS 180-4 §5.1.1): append `0x80`, zero bytes to 56
mod 64, and the 64-bit big-endian bit length. -/
def padMessage (msg : List Nat) : List Nat :=
  let len := msg.length
  let zeros := (56 + 64 - (len + 1) % 64) % 64
  msg ++ [0x80] ++ List.replicate zeros 0 ++ u64be (8 * len)

/-- Group a byte stream into big-endian 32-bit words, four bytes at a
time (the padded message length is a multiple of four). -/
def bytesToWords : List Nat → List Nat
  | b0 :: b1 :: b2 :: b3 :: rest =>
      (b0 * 16777216 + b1 * 65536 + b2 * 256 + b3) :: bytesToWords rest
  | _ => []

/-- Split a word stream into 16-word blocks.  The fuel argument (any
bound on the number of blocks, e.g. the list length) keeps the recursion
structural so that proofs can evaluate it. -/
def toBlocksF : Nat → List Nat → List (List Nat)
  | 0, _ => []
  | _, [] => []
  | fuel + 1, ws => ws.take 16 :: toBlocksF fuel (ws.drop 16)

/-- Split a word stream into 16-word blocks. -/
def toBlocks (ws : List Nat) : List (List Nat) := toBlocksF ws.length ws

/-- Serialize the final state to the 32 digest bytes. -/
def hashToBytes (st : Hash8) : List Nat :=
  u32be st.a ++ u32be st.b ++ u32be st.c ++ u32be st.d ++
  u32be st.e ++ u32be st.f ++ u32be st.g ++ u32be st.h

/-- SHA-256 of a byte list, as its 32 digest bytes (FIPS 180-4;
the function Go's `crypto/sha256` implements). -/
def sha256 (msg : List Nat) : List Nat :=
  hashToBytes ((toBlocks (bytesToWords (padMessage msg))).foldl sha256Compress sha256Init)

/-! ## Hex encoding and UTF-8

Go's `hex.EncodeToString` writes two lowercase hex digits per byte;
`h.Write([]byte(s))` feeds the UTF-8 bytes of `s`. -/

/-- The lowercase hex alphabet, as in Go's `encoding/hex`. -/
def hexDigits : List Char := "0123456789abcdef".data

/-- The hex digit for a nibble. -/
def hexDigit (n : Nat) : Char := hexDigits.getD n 'f'

/-- Lowercase hex encoding of a byte list, two digits per byte. -/
def hexEncode : List Nat → List Char
  | [] => []
  | b :: bs => hexDigit (b / 16) :: hexDigit (b % 16) :: hexEncode bs

/-- The UTF-8 bytes of one code point. -/
def utf8EncodeChar (c : Char) : List Nat :=
  let n := c.toNat
  if n < 0x80 then [n]
  else if n < 0x800 then
    [0xC0 ||| (n >>> 6), 0x80 ||| (n &&& 0x3F)]
  else if n < 0x10000 then
    [0xE0 ||| (n >>> 12), 0x80 ||| ((n >>> 6) &&& 0x3F), 0x80 ||| (n &&& 0x3F)]
  else
    [0xF0 ||| (n >>> 18), 0x80 ||| ((n >>> 12) &&& 0x3F),
     0x80 ||| ((n >>> 6) &&& 0x3F), 0x80 ||| (n &&& 0x3F)]

/-- The UTF-8 bytes of a string (what `[]byte(s)` is in Go). -/
def utf8Bytes (s : String) : List Nat := (s.data.map utf8EncodeChar).flatten

/-! ## Data model (`internal/core/crash.go`)

Timestamps (`time.Time`) are modelled as `Nat` seconds since the Unix
epoch in UTC; every time the claims touch is non-negative.  Go `int`
fields that can be compared or incremented are modelled as `Int`.
`map[string]interface{}` metadata carries no logic in any claim and is
modelled as an association list with opaque string values. -/

/-- A single frame of a stack trace (`core.StackFrame`). -/
structure StackFrame where
  fileName : String
  lineNumber : Int
  columnNumber : Int
  methodName : String
  className : String
  native : Bool
deriving DecidableEq

/-- A breadcrumb event preceding a crash (`core.Breadcrumb`). -/
structure Breadcrumb where
  timestamp : Nat
  typ : String
  category : String
  message : String
  data : List (String × String)
  level : String
deriving DecidableEq

/-- One crash report (`core.Crash`). -/
structure Crash where
  id : String
  appId : String
  appVersion : String
  platform : String
  osVersion : String
  deviceModel : String
  errorType : String
  errorMessage : String
  stackTrace : List StackFrame
  fingerprint : String
  groupId : String
  userId : String
  environment : String
  createdAt : Nat
  logFilePath : String
  metadata : List (String × String)
  breadcrumbs : List Breadcrumb
deriving DecidableEq

/-- A group of similar crashes (`core.CrashGroup`). -/
structure CrashGroup where
  id : String
  appId : String
  fingerprint : String
  errorType : String
  errorMessage : String
  firstSeen : Nat
  lastSeen : Nat
  occurrenceCount : Int
  status : String
  assignedTo : String
  notes : String
deriving DecidableEq

/-- A registered application (`core.App`). -/
structure App where
  id : String
  name : String
  apiKeyHash : String
  createdAt : Nat
  retentionDays : Int
deriving DecidableEq

/-! ## Fingerprinting (`internal/core/grouper.go`)

The Go normalizers are built from `regexp.ReplaceAllString` with fixed
patterns; each is embedded as a direct left-to-right scan implementing
exactly that pattern's leftmost, non-overlapping matches.  The scans use
a fuel argument (the input length bounds the number of steps) so that
they stay structurally recursive and kernel-evaluable. -/

/-- Is `c` an ASCII decimal digit (regexp `\d`)? -/
def isDigitChar (c : Char) : Bool := '0' ≤ c && c ≤ '9'

/-- Is `c` a word character (regexp `\w` = `[0-9A-Za-z_]`)? -/
def isWordChar (c : Char) : Bool :=
  isDigitChar c || ('a' ≤ c && c ≤ 'z') || ('A' ≤ c && c ≤ 'Z') || c == '_'

/-- Delete every match of `<[^>]+>` (generic type parameters):
at `<`, if at least one non-`>` character is followed by `>`, drop
through the `>` and continue after it; otherwise keep the character. -/
def removeGenericsF : Nat → List Char → List Char
  | 0, cs => cs
  | _, [] => []
  | fuel + 1, c :: rest =>
    if c == '<' then
      let inner := rest.takeWhile (fun x => x != '>')
      if !inner.isEmpty && !(rest.drop inner.length).isEmpty then
        removeGenericsF fuel (rest.drop (inner.length + 1))
      else c :: removeGenericsF fuel rest
    else c :: removeGenericsF fuel rest

/-- Delete every match of `\$\d+|\$anon\w*` (anonymous-class markers). -/
def removeAnonF : Nat → List Char → List Char
  | 0, cs => cs
  | _, [] => []
  | fuel + 1, c :: rest =>
    if c == '$' then
      let digits := rest.takeWhile isDigitChar
      if !digits.isEmpty then removeAnonF fuel (rest.drop digits.length)
      else if rest.take 4 == ['a', 'n', 'o', 'n'] then
        let ws := (rest.drop 4).takeWhile isWordChar
        removeAnonF fuel (rest.drop (4 + ws.length))
      else c :: removeAnonF fuel rest
    else c :: removeAnonF fuel rest

/-- `normalizeClassName`: strip generic parameters, then anonymous-class
markers. -/
def normalizeClassName (className : String) : String :=
  let noGenerics := removeGenericsF className.data.length className.data
  String.mk (removeAnonF noGenerics.length noGenerics)

/-- Delete every match of `_closure\d*|\$\d+|_\d+$` (closure / lambda
markers; the third alternative only at the end of the string). -/
def removeClosureMarkersF : Nat → List Char → List Char
  | 0, cs => cs
  | _, [] => []
  | fuel + 1, c :: rest =>
    if c == '_' && rest.take 7 == ['c', 'l', 'o', 's', 'u', 'r', 'e'] then
      let ds := (rest.drop 7).takeWhile isDigitChar
      removeClosureMarkersF fuel (rest.drop (7 + ds.length))
    else if c == '$' then
      let ds := rest.takeWhile isDigitChar
      if !ds.isEmpty then removeClosureMarkersF fuel (rest.drop ds.length)
      else c :: removeClosureMarkersF fuel rest
    else if c == '_' then
      let ds := rest.takeWhile isDigitChar
      if !ds.isEmpty && (rest.drop ds.length).isEmpty then []
      else c :: removeClosureMarkersF fuel rest
    else c :: removeClosureMarkersF fuel rest

/-- Drop the suffix `sfx` from `cs` if present (Go `strings.TrimSuffix`). -/
def trimSuffixChars (cs sfx : List Char) : List Char :=
  if sfx.length ≤ cs.length && cs.drop (cs.length - sfx.length) == sfx then
    cs.take (cs.length - sfx.length)
  else cs

/-- `normalizeMethodName`: strip closure markers, then a trailing
`_async`. -/
def normalizeMethodName (methodName : String) : String :=
  let noClosures := removeClosureMarkersF methodName.data.length methodName.data
  String.mk (trimSuffixChars noClosures ['_', 'a', 's', 'y', 'n', 'c'])

/-- Keep the part of `cs` before the first occurrence of `c`
(`fileName[:strings.Index(fileName, c)]`, or all of it if absent). -/
def cutAtChar (c : Char) (cs : List Char) : List Char :=
  cs.takeWhile (fun x => x != c)

/-- The last segment of `cs` after splitting on the separator `sep`
(`parts := strings.Split(s, sep); parts[len(parts)-1]`): the suffix
after the last occurrence of `sep`, or all of `cs` if absent. -/
def lastSegmentAfterChar (sep : Char) (cs : List Char) : List Char :=
  (cs.reverse.takeWhile (fun x => x != sep)).reverse

/-- Is `c` a lowercase hex digit (regexp `[a-f0-9]`)? -/
def isHexLowerDigit (c : Char) : Bool := isDigitChar c || ('a' ≤ c && c ≤ 'f')

/-- Collapse a trailing `.<hexls>.<ext>` build hash (`hex` run of length
at least 8, `ext` one of `js`, `dart`, `ts`) into `.<ext>`;
regexp `\.[a-f0-9]{8,}\.(js|dart|ts)$`.  The match is anchored at the
end, so it exists iff the name ends in `.ext` preceded by a `.`-delimited
hex run of length at least 8. -/
def collapseBuildHash (cs : List Char) : List Char :=
  let tryExt := fun (ext : List Char) (k : List Char) =>
    if (ext.length + 1 ≤ cs.length) &&
        (cs.drop (cs.length - (ext.length + 1)) == '.' :: ext) then
      let base := cs.take (cs.length - (ext.length + 1))
      let rev := base.reverse
      let run := rev.takeWhile isHexLowerDigit
      if 8 ≤ run.length && (rev.drop run.length).headD ' ' == '.' then
        (rev.drop (run.length + 1)).reverse ++ '.' :: ext
      else k
    else k
  tryExt ['j', 's'] (tryExt ['d', 'a', 'r', 't'] (tryExt ['t', 's'] cs))

/-- `normalizeFileName`: last path segment (split on `/` and `\`),
truncated at `?` and `#`, with a trailing build hash collapsed. -/
def normalizeFileName (fileName : String) : String :=
  let f1 := lastSegmentAfterChar '/' fileName.data
  let f2 := lastSegmentAfterChar '\\' f1
  let f3 := cutAtChar '#' (cutAtChar '?' f2)
  String.mk (collapseBuildHash f3)

/-- Crash fingerprinting and grouping configuration (`core.Grouper`). -/
structure Grouper where
  FrameLimit : Nat

/-- `core.NewGrouper`: the default grouper hashes at most five frames. -/
def NewGrouper : Grouper := ⟨5⟩

/-- `normalizeFrame`: `class:method:file` with originally-empty segments
omitted, each segment normalized. -/
def normalizeFrame (frame : StackFrame) : String :=
  let parts : List String :=
    (if frame.className != "" then [normalizeClassName frame.className] else []) ++
    (if frame.methodName != "" then [normalizeMethodName frame.methodName] else []) ++
    (if frame.fileName != "" then [normalizeFileName frame.fileName] else [])
  String.intercalate ":" parts

/-- One step of feeding the hasher: skip native frames, otherwise feed
the normalized frame and a `|` separator. -/
def feedFrame (acc : String) (frame : StackFrame) : String :=
  if frame.native then acc else acc ++ normalizeFrame frame ++ "|"

/-- The exact byte string `GenerateFingerprint` feeds to SHA-256: the
error type and a `|`, then, over the first `FrameLimit` frames only
(`frameCount := min FrameLimit (length stackTrace)` is fixed before any
frame is skipped), each non-native frame normalized and `|`-terminated. -/
def fingerprintPayload (g : Grouper) (crash : Crash) : String :=
  let frameCount :=
    if crash.stackTrace.length < g.FrameLimit then crash.stackTrace.length
    else g.FrameLimit
  (crash.stackTrace.take frameCount).foldl feedFrame (crash.errorType ++ "|")

/-- `Grouper.GenerateFingerprint`: the first 16 lowercase hex characters
of the SHA-256 of the payload. -/
def generateFingerprint (g : Grouper) (crash : Crash) : String :=
  String.mk ((hexEncode (sha256 (utf8Bytes (fingerprintPayload g crash)))).take 16)

/-! ## Group upsert (`internal/storage/sqlite.go`, `GetOrCreateGroup`)

The `crash_groups` table is modelled as a list of rows in rowid
(insertion) order; `UNIQUE(app_id, fingerprint)` makes the row the
`SELECT` finds unique, so `List.find?` models it. -/

/-- The `WHERE app_id = ? AND fingerprint = ?` condition. -/
def groupMatches (crash : Crash) (g : CrashGroup) : Bool :=
  g.appId == crash.appId && g.fingerprint == crash.fingerprint

/-- `GetOrCreateGroup`: if a row with the crash's `(app_id, fingerprint)`
exists, run `UPDATE crash_groups SET last_seen = crash.created_at,
occurrence_count = occurrence_count + 1` and return it with
`is_new = false`; otherwise insert a fresh row seeded from the crash and
return it with `is_new = true`.  Result: (returned group, is_new,
table after the transaction). -/
def getOrCreateGroup (table : List CrashGroup) (crash : Crash) :
    CrashGroup × Bool × List CrashGroup :=
  match table.find? (groupMatches crash) with
  | some g =>
    ({ g with lastSeen := crash.createdAt, occurrenceCount := g.occurrenceCount + 1 },
     false,
     table.map (fun x =>
       if x.id == g.id then
         { x with lastSeen := crash.createdAt, occurrenceCount := x.occurrenceCount + 1 }
       else x))
  | none =>
    let g : CrashGroup :=
      { id := crash.groupId, appId := crash.appId, fingerprint := crash.fingerprint,
        errorType := crash.errorType, errorMessage := crash.errorMessage,
        firstSeen := crash.createdAt, lastSeen := crash.createdAt,
        occurrenceCount := 1, status := "open", assignedTo := "", notes := "" }
    (g, true, table ++ [g])

/-! ## Retention (`internal/core/retention.go`, `DeleteCrashesOlderThan`,
`LocalFileStore.DeleteOldLogs`)

A blob-store file lives at `{app_id}/{YYYY-MM-DD}/{crash_id}.json` where
the date directory is the crash's creation UTC date; lexicographic order
on the `YYYY-MM-DD` names coincides with numeric order on UTC day
numbers, so a partition is modelled by its day number
`createdAt / 86400`. -/

/-- The UTC day number of an epoch-second instant — the blob date
partition (`crash.CreatedAt.Format("2006-01-02")`). -/
def dayOf (t : Nat) : Nat := t / 86400

/-- One stored crash-log file, identified by its path components. -/
structure LogFile where
  appId : String
  day : Nat
  crashId : String
deriving DecidableEq

/-- The blob-store file `SaveCrashLog` writes for a crash. -/
def logFor (c : Crash) : LogFile := ⟨c.appId, dayOf c.createdAt, c.id⟩

/-- `DeleteCrashesOlderThan`: `DELETE FROM crashes WHERE app_id = ? AND
created_at < ?`. -/
def deleteCrashesOlderThan (rows : List Crash) (appId : String) (before : Nat) :
    List Crash :=
  rows.filter (fun c => !(c.appId == appId && decide (c.createdAt < before)))

/-- `DeleteOldLogs`: remove every date directory of the app whose name is
lexicographically below `before.Format("2006-01-02")` — i.e. every file
whose day number is below the cutoff's day number.  Files in the
cutoff's own date directory are kept. -/
def deleteOldLogs (files : List LogFile) (appId : String) (before : Nat) :
    List LogFile :=
  files.filter (fun f => !(f.appId == appId && decide (f.day < dayOf before)))

/-- Both stores together. -/
structure Stores where
  rows : List Crash
  files : List LogFile
deriving DecidableEq

/-- The cutoff the sweep computes for one app:
`retention_days := app.retention_days if > 0 else default_days`;
`cutoff := now − retention_days` days (`AddDate(0, 0, -retentionDays)`,
modelled as `86400` seconds per day; the model truncates at the epoch,
which no claim exercises). -/
def retentionCutoff (defaultDays : Int) (now : Nat) (app : App) : Nat :=
  let retentionDays := if app.retentionDays ≤ 0 then defaultDays else app.retentionDays
  now - retentionDays.toNat * 86400

/-- The body of `cleanup`'s per-app loop: delete old rows from the
indexed store and old date partitions from the blob store, both with the
same cutoff. -/
def cleanupApp (defaultDays : Int) (now : Nat) (app : App) (s : Stores) : Stores :=
  let cutoff := retentionCutoff defaultDays now app
  ⟨deleteCrashesOlderThan s.rows app.id cutoff,
   deleteOldLogs s.files app.id cutoff⟩

/-! ## Alerting (`internal/core/alerter.go`)

`alert.Config["conditions"]` is a `map[string]interface{}`; each typed
read (`.(bool)`, `.([]interface{})`, `.(string)`) either succeeds or
leaves the zero value with `ok = false`.  A field is modelled as `none`
when the key is absent or its value has the wrong dynamic type, and
`some v` when the read succeeds; an `error_types` array element is
`some s` when it is the string `s`, `none` otherwise. -/

/-- The kinds of alertable events (`core.AlertEventType`). -/
inductive AlertEventType
  | newCrash
  | newGroup
  | threshold
deriving DecidableEq

/-- The recognized alert conditions (`conditions` in the rule config). -/
structure AlertConditions where
  onNewGroup : Option Bool := none
  onEveryCrash : Option Bool := none
  errorTypes : Option (List (Option String)) := none
deriving DecidableEq

/-- An event that may trigger alerts (`core.AlertEvent`). -/
structure AlertEvent where
  typ : AlertEventType
  appId : String
  crash : Option Crash
  group : Option CrashGroup
  isNewGroup : Bool
deriving DecidableEq

/-- The `error_types` check at the bottom of `shouldAlert`: the key reads
as a non-empty array, and some element is a string equal to the event
crash's error type (with the crash present). -/
def errorTypesMatch (conditions : AlertConditions) (event : AlertEvent) : Bool :=
  match conditions.errorTypes with
  | some ets =>
    !ets.isEmpty &&
      ets.any (fun et =>
        match et, event.crash with
        | some s, some c => c.errorType == s
        | _, _ => false)
  | none => false

/-- `shouldAlert`: the `switch` on the event type returns `true` early
for a matching type flag (and always for `threshold`); otherwise control
falls through to the `error_types` check. -/
def shouldAlert (conditions : AlertConditions) (event : AlertEvent) : Bool :=
  match event.typ with
  | .newGroup =>
    if conditions.onNewGroup == some true then true else errorTypesMatch conditions event
  | .newCrash =>
    if conditions.onEveryCrash == some true then true else errorTypesMatch conditions event
  | .threshold => true

/-- An alert rule as `processEvent` sees it (`core.Alert`, with the
`conditions` of its config decoded). -/
structure AlertRule where
  id : String
  appId : String
  typ : String
  conditions : AlertConditions
  enabled : Bool
deriving DecidableEq

/-- The per-rule gate in `processEvent`: enabled, app scope, and
`shouldAlert`; when it holds the rule's sink is dispatched. -/
def ruleFires (rule : AlertRule) (event : AlertEvent) : Bool :=
  rule.enabled && (rule.appId == "" || rule.appId == event.appId) &&
    shouldAlert rule.conditions event

/-- The result the alert worker observes from one webhook send. -/
inductive HttpOutcome
  | response (status : Nat)
  | failure (msg : String)
deriving DecidableEq

/-- `sendWebhook`, after the payload is marshalled (marshalling a map of
strings and the request construction cannot fail): no or empty `url` in
the config is an error, a transport failure is an error, and a response
is an error exactly when `resp.StatusCode >= 400`. -/
def sendWebhook (url : Option String) (outcome : HttpOutcome) : Except String Unit :=
  match url with
  | none => .error "webhook URL not configured"
  | some u =>
    if u == "" then .error "webhook URL not configured"
    else
      match outcome with
      | .failure e => .error ("failed to send webhook: " ++ e)
      | .response status =>
        if 400 ≤ status then .error ("webhook returned status " ++ toString status)
        else .ok ()

/-- Did a send succeed (no error returned)? -/
def sendOk : Except String Unit → Bool
  | .ok _ => true
  | .error _ => false

/-- Is an HTTP status in the 2xx range? -/
def is2xx (status : Nat) : Bool := 200 ≤ status && status < 300

/-! ## The alert queue (`NewAlertManager`, `Notify`)

`queue: make(chan AlertEvent, 100)` with `Notify`'s
`select { case queue <- event: ; default: drop }`: the buffered channel
is modelled as the list of queued events; the non-blocking send appends
when the buffer has room and leaves it untouched when full. -/

/-- The queue capacity fixed in `NewAlertManager`. -/
def alertQueueCapacity : Nat := 100

/-- `Notify`: non-blocking enqueue; a full queue drops the event. -/
def notifyQueue (queue : List AlertEvent) (event : AlertEvent) : List AlertEvent :=
  if queue.length < alertQueueCapacity then queue ++ [event] else queue

/-! ## Crash submission (`SubmitCrash` handler)

The handler is embedded after request binding and validation: the fresh
UUIDs and the server clock are parameters, the repository is the group
table and crash-row list, and the two fallible storage calls that the
claims exercise are parameters giving their outcome (`SaveCrashLog`
returns the relative path on success). -/

/-- The submission payload (`core.CrashSubmission`), already validated. -/
structure CrashSubmission where
  appVersion : String
  platform : String
  osVersion : String
  deviceModel : String
  errorType : String
  errorMessage : String
  stackTrace : List StackFrame
  userId : String
  environment : String
  metadata : List (String × String)
  breadcrumbs : List Breadcrumb
deriving DecidableEq

/-- The response `SubmitCrash` writes. -/
inductive SubmitResponse
  | created (id groupId fingerprint : String) (isNewGroup : Bool)
  | groupError
  | saveError
deriving DecidableEq

/-- Was the submission answered with `201 Created`? -/
def SubmitResponse.isCreated : SubmitResponse → Bool
  | .created _ _ _ _ => true
  | _ => false

/-- Materialize a `Crash` from a submission: fresh id, server-side UTC
timestamp, `environment` defaulted to `production`; `fingerprint`,
`group_id` and `log_file_path` start at the zero value. -/
def materializeCrash (newId : String) (now : Nat) (appId : String)
    (sub : CrashSubmission) : Crash :=
  { id := newId, appId := appId, appVersion := sub.appVersion,
    platform := sub.platform, osVersion := sub.osVersion,
    deviceModel := sub.deviceModel, errorType := sub.errorType,
    errorMessage := sub.errorMessage, stackTrace := sub.stackTrace,
    fingerprint := "", groupId := "", userId := sub.userId,
    environment := if sub.environment == "" then "production" else sub.environment,
    createdAt := now, logFilePath := "", metadata := sub.metadata,
    breadcrumbs := sub.breadcrumbs }

/-- `SubmitCrash` after validation: fingerprint, group upsert (aborting
with a 500 on failure), blob write (on failure just continue, leaving
`log_file_path` empty), crash-row insert (aborting with a 500 on
failure), then the 201 response.  Result: (response, group table,
crash rows). -/
def submitCrash (newId newGroupId : String) (now : Nat) (appId : String)
    (sub : CrashSubmission) (groups : List CrashGroup) (rows : List Crash)
    (groupFails : Bool) (blobResult : Except String String) (insertFails : Bool) :
    SubmitResponse × List CrashGroup × List Crash :=
  let crash0 := materializeCrash newId now appId sub
  let crash1 := { crash0 with fingerprint := generateFingerprint NewGrouper crash0 }
  let crash2 := { crash1 with groupId := newGroupId }
  if groupFails then (.groupError, groups, rows)
  else
    let res := getOrCreateGroup groups crash2
    let crash3 := { crash2 with groupId := res.1.id }
    let crash4 :=
      match blobResult with
      | .error _ => crash3
      | .ok path => { crash3 with logFilePath := path }
    if insertFails then (.saveError, res.2.2, rows)
    else (.created crash4.id crash4.groupId crash4.fingerprint res.2.1, res.2.2,
          rows ++ [crash4])

/-! ## Stats top errors (`GetAppStats`)

`SELECT id, error_type, error_message, occurrence_count FROM crash_groups
WHERE app_id = ? ORDER BY occurrence_count DESC LIMIT 5`.  The scan order
is the table's rowid order; `ORDER BY` with a single key is modelled as a
stable sort on that order.  The query has no further sort key. -/

/-- One row of the top-errors answer (`core.ErrorSummary`). -/
structure ErrorSummary where
  groupId : String
  errorType : String
  errorMessage : String
  count : Int
deriving DecidableEq

/-- Insert into a descending-sorted list, after every row with a
strictly larger count and before the first row with count `≤` —
preserving scan order among equal counts. -/
def insertByCountDesc (g : CrashGroup) : List CrashGroup → List CrashGroup
  | [] => [g]
  | x :: xs =>
    if g.occurrenceCount < x.occurrenceCount then x :: insertByCountDesc g xs
    else g :: x :: xs

/-- Stable sort by `occurrence_count` descending. -/
def sortByCountDesc (rows : List CrashGroup) : List CrashGroup :=
  rows.foldr insertByCountDesc []

/-- The top-errors query: filter the app's groups, order by occurrence
count descending, keep five, project the selected columns. -/
def topErrors (table : List CrashGroup) (appId : String) : List ErrorSummary :=
  ((sortByCountDesc (table.filter (fun g => g.appId == appId))).take 5).map
    (fun g => ⟨g.id, g.errorType, g.errorMessage, g.occurrenceCount⟩)

/-! ## Auxiliary definitions used by the theorems -/

/-- Insert a frame at position `i` of a stack trace. -/
def insertFrameAt (l : List StackFrame) (i : Nat) (f : StackFrame) : List StackFrame :=
  l.take i ++ f :: l.drop i

/-- The frame fields `normalizeFrame` and the native check read:
`(class_name, method_name, file_name, native)`. -/
def frameKey (f : StackFrame) : String × String × String × Bool :=
  (f.className, f.methodName, f.fileName, f.native)

/-- A crash with every field at its zero value. -/
def blankCrash : Crash :=
  { id := "", appId := "", appVersion := "", platform := "", osVersion := "",
    deviceModel := "", errorType := "", errorMessage := "", stackTrace := [],
    fingerprint := "", groupId := "", userId := "", environment := "",
    createdAt := 0, logFilePath := "", metadata := [], breadcrumbs := [] }

/-- A group with every field at its zero value. -/
def blankGroup : CrashGroup :=
  { id := "", appId := "", fingerprint := "", errorType := "", errorMessage := "",
    firstSeen := 0, lastSeen := 0, occurrenceCount := 0, status := "open",
    assignedTo := "", notes := "" }

/-- Five distinct non-native application frames. -/
def c1Frames : List StackFrame :=
  [⟨"a.dart", 1, 0, "fa", "", false⟩, ⟨"b.dart", 2, 0, "fb", "", false⟩,
   ⟨"c.dart", 3, 0, "fc", "", false⟩, ⟨"d.dart", 4, 0, "fd", "", false⟩,
   ⟨"e.dart", 5, 0, "fe", "", false⟩]

/-- A crash whose first five frames are all non-native. -/
def c1Base : Crash := { blankCrash with
    errorType := "StateError", stackTrace := c1Frames }

/-- A native (runtime) frame. -/
def c1Native : StackFrame := ⟨"dart:async", 0, 0, "_run", "", true⟩

/-- A crash with a single non-native frame. -/
def c1Short : Crash :=
  { blankCrash with
    errorType := "E", stackTrace := [⟨"a.dart", 1, 0, "m", "", false⟩] }

/-- An existing group with `last_seen = 1000` and 7 occurrences. -/
def c2Group : CrashGroup :=
  { blankGroup with
    id := "g-1", appId := "app-1", fingerprint := "f1",
    errorType := "E", errorMessage := "m", firstSeen := 0, lastSeen := 1000,
    occurrenceCount := 7 }

/-- A crash for the same `(app_id, fingerprint)` dated before the
group's `last_seen`. -/
def c2Crash : Crash :=
  { blankCrash with
    appId := "app-1", fingerprint := "f1", groupId := "g-new",
    createdAt := 500 }

/-- A crash for the same `(app_id, fingerprint)` dated after the group's
`last_seen`. -/
def c2CrashLater : Crash :=
  { blankCrash with
    appId := "app-1", fingerprint := "f1", groupId := "g-new",
    createdAt := 2000 }

/-- An app with a 30-day retention window. -/
def c3App : App := { id := "app-1", name := "A", apiKeyHash := "", createdAt := 0,
                     retentionDays := 30 }

/-- The sweep instant for the retention scenario: one hour past the
30-day boundary of the epoch, so the cutoff is 01:00 UTC on day 0. -/
def c3Now : Nat := 30 * 86400 + 3600

/-- A crash at 00:00 UTC on day 0 — older than the cutoff but in the
cutoff's own date partition. -/
def c3Crash : Crash := { blankCrash with
    id := "c-old", appId := "app-1", createdAt := 0 }

/-- A crash well inside the retention window. -/
def c3CrashNew : Crash :=
  { blankCrash with
    id := "c-new", appId := "app-1", createdAt := 2500000 }

/-- Conditions with the new-group flag on and an error-type list. -/
def c4Conditions : AlertConditions :=
  { onNewGroup := some true, errorTypes := some [some "NullPointerException"] }

/-- An enabled, unscoped webhook rule with those conditions. -/
def c4Rule : AlertRule :=
  { id := "r-1", appId := "", typ := "webhook", conditions := c4Conditions,
    enabled := true }

/-- A new-group event whose crash error type is not in the rule's list. -/
def c4Event : AlertEvent :=
  { typ := .newGroup, appId := "app-1",
    crash := some { blankCrash with
    errorType := "OutOfMemoryError" },
    group := none, isNewGroup := true }

/-- A queued event fixture. -/
def c7Event : AlertEvent :=
  { typ := .newCrash, appId := "app-1", crash := none, group := none,
    isNewGroup := false }

/-- Crashes that differ only in line and column numbers plus
fingerprint-irrelevant context fields. -/
def c9a : Crash :=
  { blankCrash with
    errorType := "FormatException", errorMessage := "bad input",
    appVersion := "1.0.0", platform := "flutter",
    stackTrace := [⟨"a.dart", 10, 2, "parse", "Parser", false⟩] }

/-- The same crash as `c9a` up to line, column, message, version,
platform, user, and metadata. -/
def c9b : Crash :=
  { blankCrash with
    errorType := "FormatException", errorMessage := "other",
    appVersion := "2.3.1", platform := "android", userId := "u-1",
    osVersion := "14", deviceModel := "Pixel", environment := "staging",
    createdAt := 99, metadata := [("k", "v")],
    stackTrace := [⟨"a.dart", 99, 7, "parse", "Parser", false⟩] }

/-- Two groups of the same app with equal occurrence counts; the
earlier-inserted row has the earlier `last_seen`. -/
def c10A : CrashGroup :=
  { blankGroup with
    id := "g-A", appId := "app-1", fingerprint := "fa",
    errorType := "E", lastSeen := 100, occurrenceCount := 5 }

/-- The later-inserted tied group, with the later `last_seen`. -/
def c10B : CrashGroup :=
  { blankGroup with
    id := "g-B", appId := "app-1", fingerprint := "fb",
    errorType := "E", lastSeen := 200, occurrenceCount := 5 }

/-- Six groups with distinct occurrence counts, for exercising the
five-row limit. -/
def c10Table : List CrashGroup :=
  [{ blankGroup with
    id := "g-1", appId := "app-1", occurrenceCount := 9 },
   { blankGroup with
    id := "g-2", appId := "app-1", occurrenceCount := 8 },
   { blankGroup with
    id := "g-3", appId := "app-1", occurrenceCount := 7 },
   { blankGroup with
    id := "g-4", appId := "app-1", occurrenceCount := 6 },
   { blankGroup with
    id := "g-5", appId := "app-1", occurrenceCount := 4 },
   { blankGroup with
    id := "g-6", appId := "app-1", occurrenceCount := 2 }]

/-! ## Helper lemmas -/

/-- Regression check against the FIPS 180-4 test vector: the embedded
SHA-256 agrees with the real function on the bytes of "abc". -/
theorem sha256_abc_vector : String.mk (hexEncode (sha256 (utf8Bytes "abc"))) =
    "ba7816bf8f01cfea414140de5dae2223b00361a396177a9cb410ff61f20015ad" := by
  decide

/-- Every character `hexDigit` can produce is a lowercase hex digit. -/
theorem hexDigit_lowerHex (n : Nat) : isHexLowerDigit (hexDigit n) = true := by
  unfold hexDigit
  by_cases h : n < hexDigits.length
  · have h16 : hexDigits.length = 16 := by decide
    rw [h16] at h
    interval_cases n <;> decide
  · rw [List.getD_eq_default _ _ (Nat.le_of_not_lt h)]
    decide

/-- Every character of a hex encoding is a lowercase hex digit. -/
theorem hexEncode_lowerHex (bs : List Nat) :
    ∀ c ∈ hexEncode bs, isHexLowerDigit c = true := by
  induction bs with
  | nil => intro c hc; cases hc
  | cons b bs ih =>
    intro c hc
    rcases hc with _ | ⟨_, h⟩
    · exact hexDigit_lowerHex _
    · rcases h with _ | ⟨_, h⟩
      · exact hexDigit_lowerHex _
      · exact ih c h

/-- Hex encoding writes two characters per byte. -/
theorem hexEncode_length (bs : List Nat) : (hexEncode bs).length = 2 * bs.length := by
  induction bs with
  | nil => rfl
  | cons b bs ih => simp [hexEncode, ih]; omega

/-- A SHA-256 digest is 32 bytes, whatever the message. -/
theorem sha256_length (m : List Nat) : (sha256 m).length = 32 := by
  simp [sha256, hashToBytes, u32be]

/-- A fingerprint is the first 16 characters of a 64-character hex
string. -/
theorem generateFingerprint_data (g : Grouper) (c : Crash) :
    (generateFingerprint g c).data =
      (hexEncode (sha256 (utf8Bytes (fingerprintPayload g c)))).take 16 := rfl

/-! ## C5 — webhook success is status < 400, not status in 2xx -/

/-- C5, counterexample: the claim says any non-2xx status (including
3xx) is reported as a failure, but `sendWebhook` reports status 300 as a
success (it only errors on `StatusCode >= 400`). -/
theorem c5_webhook_cex :
    sendOk (sendWebhook (some "https://example.com/hook") (.response 300)) = true ∧
    is2xx 300 = false := by
  decide

/-- C5, amended: with a configured URL and a transport-level success,
a webhook dispatch is reported as a success if and only if the response
status code is strictly below 400; 1xx, 2xx and 3xx all count as
success. -/
theorem c5_webhook_amended (u : String) (status : Nat) (h : u ≠ "") :
    sendOk (sendWebhook (some u) (.response status)) = true ↔ status < 400 := by
  have hu : (u == "") = false := beq_eq_false_iff_ne.mpr h
  by_cases hs : 400 ≤ status
  · simp only [sendWebhook, hu, Bool.false_eq_true, if_false, if_pos hs, sendOk]
    constructor
    · intro hfalse; cases hfalse
    · intro hlt; omega
  · simp only [sendWebhook, hu, Bool.false_eq_true, if_false, if_neg hs, sendOk]
    constructor
    · intro _; omega
    · intro _; trivial

/-- C5, witness: a 204 response on a configured URL is a success. -/
theorem c5_webhook_amended_witness :
    sendOk (sendWebhook (some "https://example.com/hook") (.response 204)) = true :=
  (c5_webhook_amended "https://example.com/hook" 204 (by decide)).mpr (by decide)

/-! ## C6 — blob-write failure is recovered -/

/-- C6: when the blob write fails but the group upsert and the row
insert succeed, `SubmitCrash` still answers `201 Created` and inserts
exactly one crash row whose `log_file_path` is empty; the blob error is
not surfaced. -/
theorem c6_blob_failure_recovered (newId newGroupId : String) (now : Nat)
    (appId : String) (sub : CrashSubmission) (groups : List CrashGroup)
    (rows : List Crash) (e : String) :
    ((submitCrash newId newGroupId now appId sub groups rows false (.error e) false).1).isCreated
        = true ∧
    ∃ c, (submitCrash newId newGroupId now appId sub groups rows false (.error e) false).2.2
        = rows ++ [c] ∧ c.logFilePath = "" := by
  exact ⟨rfl, ⟨_, rfl, rfl⟩⟩

/-! ## C7 — the alert queue never blocks, drops on overflow -/

/-- C7: `Notify` is a non-blocking total function of the queue state:
with free space (length below the capacity of 100) the event is
appended; on a full queue the event is dropped and the queue is
unchanged; the queue never exceeds its capacity. -/
theorem c7_notify_drop (q : List AlertEvent) (e : AlertEvent) :
    (q.length < alertQueueCapacity → notifyQueue q e = q ++ [e]) ∧
    (alertQueueCapacity ≤ q.length → notifyQueue q e = q) ∧
    (q.length ≤ alertQueueCapacity → (notifyQueue q e).length ≤ alertQueueCapacity) := by
  refine ⟨fun h => by simp [notifyQueue, h], fun h => by simp [notifyQueue, Nat.not_lt.mpr h],
    fun h => ?_⟩
  by_cases hq : q.length < alertQueueCapacity
  · simp only [notifyQueue, if_pos hq, List.length_append, List.length_cons, List.length_nil]
    omega
  · simpa [notifyQueue, hq] using h

/-- C7, witness: an empty queue takes the event; a full queue of 100
events is returned unchanged. -/
theorem c7_notify_drop_witness :
    notifyQueue [] c7Event = [c7Event] ∧
    notifyQueue (List.replicate 100 c7Event) c7Event = List.replicate 100 c7Event :=
  ⟨(c7_notify_drop [] c7Event).1 (by decide),
   (c7_notify_drop (List.replicate 100 c7Event) c7Event).2.1 (by simp [alertQueueCapacity])⟩

/-! ## C4 — error_types is an extra trigger, not a restriction -/

/-- C4, counterexample: the claim says a non-empty `error_types` list
restricts every kind of match, but an enabled rule with
`on_new_group = true` fires (and its sink is dispatched) for a new-group
event whose crash error type is not in the list: the `switch` returns
`true` before the `error_types` check is reached. -/
theorem c4_error_types_cex :
    ruleFires c4Rule c4Event = true ∧
    c4Rule.conditions.errorTypes = some [some "NullPointerException"] ∧
    (c4Event.crash.map Crash.errorType) = some "OutOfMemoryError" ∧
    "OutOfMemoryError" ∉ ["NullPointerException"] := by
  decide

/-- C4, amended: a non-empty `error_types` list does not restrict the
type-flag matches — `on_new_group = true` matches every new-group event
and `on_every_crash = true` every new-crash event regardless of the
list; instead, a listed error type is an additional trigger that makes
any event carrying such a crash match even with both flags unset. -/
theorem c4_error_types_amended :
    (∀ (cond : AlertConditions) (ev : AlertEvent), ev.typ = .newGroup →
      cond.onNewGroup = some true → shouldAlert cond ev = true) ∧
    (∀ (cond : AlertConditions) (ev : AlertEvent), ev.typ = .newCrash →
      cond.onEveryCrash = some true → shouldAlert cond ev = true) ∧
    (∀ (cond : AlertConditions) (ev : AlertEvent) (c : Crash)
      (ets : List (Option String)), ev.crash = some c →
      cond.errorTypes = some ets → some c.errorType ∈ ets →
      shouldAlert cond ev = true) := by
  refine ⟨?_, ?_, ?_⟩
  · intro cond ev ht hflag
    unfold shouldAlert
    rw [ht, hflag]
    simp
  · intro cond ev ht hflag
    unfold shouldAlert
    rw [ht, hflag]
    simp
  · intro cond ev c ets hcrash hets hmem
    have hmatch : errorTypesMatch cond ev = true := by
      simp only [errorTypesMatch, hets, Bool.and_eq_true, List.any_eq_true]
      refine ⟨?_, some c.errorType, hmem, ?_⟩
      · cases ets with
        | nil => cases hmem
        | cons x xs => rfl
      · rw [hcrash]
        simp
    cases htyp : ev.typ <;> simp [shouldAlert, htyp, hmatch]

/-- C4, witness: the amended statement at the counterexample's rule and
event — the new-group flag alone makes the event match. -/
theorem c4_error_types_amended_witness :
    shouldAlert c4Conditions c4Event = true :=
  c4_error_types_amended.1 c4Conditions c4Event rfl rfl

/-! ## C2 — the upsert overwrites last_seen instead of taking the max -/

/-- C2, counterexample: the claim says the matched group's `last_seen`
becomes `max(last_seen, crash.created_at)`, but for a crash dated before
the stored `last_seen` (1000) the `UPDATE ... SET last_seen =
crash.created_at` moves it backwards to 500. -/
theorem c2_upsert_cex :
    (getOrCreateGroup [c2Group] c2Crash).2.1 = false ∧
    (getOrCreateGroup [c2Group] c2Crash).1.lastSeen = 500 ∧
    max c2Group.lastSeen c2Crash.createdAt = 1000 ∧
    (getOrCreateGroup [c2Group] c2Crash).1.lastSeen ≠
      max c2Group.lastSeen c2Crash.createdAt := by
  decide

/-- C2, amended: when a group with the crash's `(app_id, fingerprint)`
exists, `GetOrCreateGroup` returns that group with `is_new = false`,
sets its `last_seen` to `crash.created_at` unconditionally (so it can
move backwards when the crash is dated earlier), and increases
`occurrence_count` by exactly 1. -/
theorem c2_upsert_amended (table : List CrashGroup) (crash : Crash) (g : CrashGroup)
    (h : table.find? (groupMatches crash) = some g) :
    (getOrCreateGroup table crash).2.1 = false ∧
    (getOrCreateGroup table crash).1.id = g.id ∧
    (getOrCreateGroup table crash).1.appId = crash.appId ∧
    (getOrCreateGroup table crash).1.fingerprint = crash.fingerprint ∧
    (getOrCreateGroup table crash).1.lastSeen = crash.createdAt ∧
    (getOrCreateGroup table crash).1.occurrenceCount = g.occurrenceCount + 1 := by
  have hm := List.find?_some h
  simp only [groupMatches, Bool.and_eq_true, beq_iff_eq] at hm
  unfold getOrCreateGroup
  rw [h]
  exact ⟨rfl, rfl, hm.1, hm.2, rfl, rfl⟩

/-- C2, witness: the amended statement at a concrete table and a crash
dated after the stored `last_seen`. -/
theorem c2_upsert_amended_witness :
    (getOrCreateGroup [c2Group] c2CrashLater).2.1 = false ∧
    (getOrCreateGroup [c2Group] c2CrashLater).1.id = c2Group.id ∧
    (getOrCreateGroup [c2Group] c2CrashLater).1.appId = c2CrashLater.appId ∧
    (getOrCreateGroup [c2Group] c2CrashLater).1.fingerprint = c2CrashLater.fingerprint ∧
    (getOrCreateGroup [c2Group] c2CrashLater).1.lastSeen = c2CrashLater.createdAt ∧
    (getOrCreateGroup [c2Group] c2CrashLater).1.occurrenceCount =
      c2Group.occurrenceCount + 1 :=
  c2_upsert_amended [c2Group] c2CrashLater c2Group (by decide)

/-! ## C3 — the blob store keeps same-day files past the cutoff -/

/-- C3, counterexample: with a 30-day window and a sweep at 01:00 UTC on
day 30, the cutoff is 01:00 UTC on day 0; a crash from 00:00 UTC on day
0 is older than the cutoff and its row is deleted, but its log file sits
in the cutoff's own date partition, which `DeleteOldLogs` keeps (it only
removes directories lexicographically below the cutoff date). -/
theorem c3_retention_cex :
    c3Crash.createdAt < retentionCutoff 30 c3Now c3App ∧
    (cleanupApp 30 c3Now c3App ⟨[c3Crash], [logFor c3Crash]⟩).rows = [] ∧
    logFor c3Crash ∈ (cleanupApp 30 c3Now c3App ⟨[c3Crash], [logFor c3Crash]⟩).files := by
  decide

/-- C3, amended: after one retention sweep for an app with cutoff `T`,
no crash row with `created_at < T` remains in the indexed store, and no
log file in a date partition strictly before `T`'s UTC date remains in
the blob store; files in `T`'s own date partition survive even when
their crash's `created_at < T`. -/
theorem c3_retention_amended (defaultDays : Int) (now : Nat) (app : App) (s : Stores) :
    (∀ r ∈ (cleanupApp defaultDays now app s).rows,
      r.appId = app.id → ¬ r.createdAt < retentionCutoff defaultDays now app) ∧
    (∀ f ∈ (cleanupApp defaultDays now app s).files,
      f.appId = app.id → ¬ f.day < dayOf (retentionCutoff defaultDays now app)) := by
  constructor
  · intro r hr happ
    simp only [cleanupApp, deleteCrashesOlderThan, List.mem_filter, Bool.not_eq_eq_eq_not,
      Bool.not_true, Bool.and_eq_false_iff, beq_eq_false_iff_ne, ne_eq,
      decide_eq_false_iff_not] at hr
    rcases hr.2 with hter | hter
    · exact absurd happ hter
    · exact hter
  · intro f hf happ
    simp only [cleanupApp, deleteOldLogs, List.mem_filter, Bool.not_eq_eq_eq_not,
      Bool.not_true, Bool.and_eq_false_iff, beq_eq_false_iff_ne, ne_eq,
      decide_eq_false_iff_not] at hf
    rcases hf.2 with hter | hter
    · exact absurd happ hter
    · exact hter

/-- C3, witness: a crash inside the window survives the sweep together
with its log file, and it is indeed not older than the cutoff. -/
theorem c3_retention_amended_witness :
    c3CrashNew ∈ (cleanupApp 30 c3Now c3App ⟨[c3CrashNew], [logFor c3CrashNew]⟩).rows ∧
    ¬ c3CrashNew.createdAt < retentionCutoff 30 c3Now c3App :=
  ⟨by decide,
   (c3_retention_amended 30 c3Now c3App ⟨[c3CrashNew], [logFor c3CrashNew]⟩).1
     c3CrashNew (by decide) rfl⟩

/-! ## C10 — top five groups: sorted by count, but no last_seen tiebreak -/

/-- Inserting into the count-descending order yields a permutation of
consing. -/
theorem insertByCountDesc_perm (g : CrashGroup) (l : List CrashGroup) :
    (insertByCountDesc g l).Perm (g :: l) := by
  induction l with
  | nil => exact List.Perm.refl _
  | cons x xs ih =>
    unfold insertByCountDesc
    split
    · exact ((ih.cons x).trans (List.Perm.swap g x xs))
    · exact List.Perm.refl _

/-- The stable sort permutes its input. -/
theorem sortByCountDesc_perm (l : List CrashGroup) : (sortByCountDesc l).Perm l := by
  induction l with
  | nil => exact List.Perm.refl _
  | cons x xs ih =>
    exact (insertByCountDesc_perm x (sortByCountDesc xs)).trans (ih.cons x)

/-- Inserting preserves the count-descending pairwise order. -/
theorem insertByCountDesc_pairwise (g : CrashGroup) (l : List CrashGroup)
    (h : l.Pairwise (fun a b => b.occurrenceCount ≤ a.occurrenceCount)) :
    (insertByCountDesc g l).Pairwise (fun a b => b.occurrenceCount ≤ a.occurrenceCount) := by
  induction l with
  | nil => exact List.pairwise_singleton _ _
  | cons x xs ih =>
    rcases List.pairwise_cons.mp h with ⟨hx, hxs⟩
    unfold insertByCountDesc
    split
    · rename_i hlt
      refine List.pairwise_cons.mpr ⟨?_, ih hxs⟩
      intro y hy
      rcases List.mem_cons.mp ((insertByCountDesc_perm g xs).mem_iff.mp hy) with hg | hmem
      · exact hg ▸ Int.le_of_lt hlt
      · exact hx y hmem
    · rename_i hge
      refine List.pairwise_cons.mpr ⟨?_, h⟩
      intro y hy
      rcases hy with _ | ⟨_, hmem⟩
      · exact Int.not_lt.mp hge
      · exact le_trans (hx y hmem) (Int.not_lt.mp hge)

/-- The stable sort is pairwise count-descending. -/
theorem sortByCountDesc_pairwise (l : List CrashGroup) :
    (sortByCountDesc l).Pairwise (fun a b => b.occurrenceCount ≤ a.occurrenceCount) := by
  induction l with
  | nil => exact List.Pairwise.nil
  | cons x xs ih => exact insertByCountDesc_pairwise x (sortByCountDesc xs) ih

/-- C10, counterexample: the claim says ties in `occurrence_count` are
broken by `last_seen` descending, but the query orders by
`occurrence_count DESC` alone; two tied groups come back in table scan
order, with the earlier-`last_seen` group first. -/
theorem c10_top_groups_cex :
    c10A.occurrenceCount = c10B.occurrenceCount ∧
    c10A.lastSeen < c10B.lastSeen ∧
    (topErrors [c10A, c10B] "app-1").map ErrorSummary.groupId = ["g-A", "g-B"] := by
  decide

/-- C10, amended: the top-errors rows are a permutation of the app's
groups ordered by `occurrence_count` descending and cut to five, so
every listed count dominates every unlisted one — but ties carry no
`last_seen` ordering (the query has no second sort key; tied rows appear
in scan order). -/
theorem c10_top_groups_amended (table : List CrashGroup) (appId : String) :
    (sortByCountDesc (table.filter (fun g => g.appId == appId))).Perm
      (table.filter (fun g => g.appId == appId)) ∧
    (topErrors table appId).Pairwise (fun a b => b.count ≤ a.count) ∧
    (∀ a ∈ (sortByCountDesc (table.filter (fun g => g.appId == appId))).take 5,
     ∀ b ∈ (sortByCountDesc (table.filter (fun g => g.appId == appId))).drop 5,
      b.occurrenceCount ≤ a.occurrenceCount) := by
  refine ⟨sortByCountDesc_perm _, ?_, ?_⟩
  · unfold topErrors
    refine List.pairwise_map.mpr ?_
    exact (sortByCountDesc_pairwise _).sublist (List.take_sublist 5 _)
  · intro a ha b hb
    have hsplit := List.take_append_drop 5 (sortByCountDesc (table.filter (fun g => g.appId == appId)))
    have hp := sortByCountDesc_pairwise (table.filter (fun g => g.appId == appId))
    rw [← hsplit] at hp
    exact (List.pairwise_append.mp hp).2.2 a ha b hb

/-- C10, witness: on six groups with distinct counts the sixth-ranked
group's count is dominated by the top-ranked one. -/
theorem c10_top_groups_amended_witness :
    c10Table.getD 5 blankGroup ∈
      (sortByCountDesc (c10Table.filter (fun g => g.appId == "app-1"))).drop 5 ∧
    c10Table.getD 0 blankGroup ∈
      (sortByCountDesc (c10Table.filter (fun g => g.appId == "app-1"))).take 5 ∧
    (c10Table.getD 5 blankGroup).occurrenceCount ≤
      (c10Table.getD 0 blankGroup).occurrenceCount :=
  ⟨by decide, by decide,
   (c10_top_groups_amended c10Table "app-1").2.2 (c10Table.getD 0 blankGroup) (by decide)
     (c10Table.getD 5 blankGroup) (by decide)⟩

/-! ## Fingerprint lemmas -/

/-- `normalizeFrame` only reads the fields in `frameKey`. -/
theorem normalizeFrame_congr {f g : StackFrame} (h : frameKey f = frameKey g) :
    normalizeFrame f = normalizeFrame g := by
  simp only [frameKey, Prod.mk.injEq] at h
  obtain ⟨h1, h2, h3, _⟩ := h
  simp only [normalizeFrame, h1, h2, h3]

/-- `feedFrame` only reads the fields in `frameKey`. -/
theorem feedFrame_congr (acc : String) {f g : StackFrame} (h : frameKey f = frameKey g) :
    feedFrame acc f = feedFrame acc g := by
  have hn : f.native = g.native := by
    simpa only [frameKey, Prod.mk.injEq] using congrArg (fun p => p.2.2.2) h
  simp only [feedFrame, hn, normalizeFrame_congr h]

/-- Feeding frames only depends on the `frameKey` projections. -/
theorem foldl_feedFrame_congr :
    ∀ {l1 l2 : List StackFrame}, l1.map frameKey = l2.map frameKey →
    ∀ init : String, l1.foldl feedFrame init = l2.foldl feedFrame init := by
  intro l1
  induction l1 with
  | nil =>
    intro l2 h init
    cases l2 with
    | nil => rfl
    | cons g gs => simp at h
  | cons f fs ih =>
    intro l2 h init
    cases l2 with
    | nil => simp at h
    | cons g gs =>
      simp only [List.map_cons, List.cons.injEq] at h
      simp only [List.foldl_cons]
      rw [feedFrame_congr init h.1]
      exact ih h.2 _

/-- Feeding a list of frames is feeding its non-native frames. -/
theorem foldl_feedFrame_filter (l : List StackFrame) (init : String) :
    l.foldl feedFrame init =
      (l.filter (fun x => !x.native)).foldl (fun acc fr => acc ++ normalizeFrame fr ++ "|") init := by
  induction l generalizing init with
  | nil => rfl
  | cons f fs ih =>
    cases hf : f.native
    · simp [List.filter_cons, hf, feedFrame, ih]
    · simp [List.filter_cons, hf, feedFrame, ih]

/-- The payload in closed form: the error type, then the non-native
frames among the first `FrameLimit` frames. -/
theorem fingerprintPayload_eq (g : Grouper) (c : Crash) :
    fingerprintPayload g c =
      ((c.stackTrace.take g.FrameLimit).filter (fun x => !x.native)).foldl
        (fun acc fr => acc ++ normalizeFrame fr ++ "|") (c.errorType ++ "|") := by
  have htake : c.stackTrace.take
      (if c.stackTrace.length < g.FrameLimit then c.stackTrace.length else g.FrameLimit) =
      c.stackTrace.take g.FrameLimit := by
    split
    · rename_i hlt
      rw [List.take_length, List.take_of_length_le (Nat.le_of_lt hlt)]
    · rfl
  simp only [fingerprintPayload]
  rw [htake, foldl_feedFrame_filter]

/-! ## C8 — fingerprints are deterministic 16-character lowercase hex -/

/-- C8: `GenerateFingerprint` is a function of the crash (trivially
deterministic), and its value is always exactly 16 characters, each a
lowercase hex digit. -/
theorem c8_fingerprint_shape (c : Crash) :
    generateFingerprint NewGrouper c = generateFingerprint NewGrouper c ∧
    (generateFingerprint NewGrouper c).length = 16 ∧
    ∀ ch ∈ (generateFingerprint NewGrouper c).data, isHexLowerDigit ch = true := by
  refine ⟨rfl, ?_, ?_⟩
  · show (generateFingerprint NewGrouper c).data.length = 16
    rw [generateFingerprint_data, List.length_take, hexEncode_length, sha256_length]
    omega
  · intro ch hch
    rw [generateFingerprint_data] at hch
    exact hexEncode_lowerHex _ ch (List.take_subset 16 _ hch)

/-- C8, witness: the shape facts at the all-blank crash. -/
theorem c8_fingerprint_shape_witness :
    (generateFingerprint NewGrouper blankCrash).length = 16 :=
  (c8_fingerprint_shape blankCrash).2.1

/-! ## C9 — the fingerprint reads only error type and frame keys -/

/-- C9: two crashes with the same `error_type` whose stack traces agree
frame-by-frame on `(class_name, method_name, file_name, native)` have
the same fingerprint — line and column numbers, the error message, and
all other context fields are not read. -/
theorem c9_fingerprint_projection (c1 c2 : Crash)
    (het : c1.errorType = c2.errorType)
    (hst : c1.stackTrace.map frameKey = c2.stackTrace.map frameKey) :
    generateFingerprint NewGrouper c1 = generateFingerprint NewGrouper c2 := by
  have hlen : c1.stackTrace.length = c2.stackTrace.length := by
    simpa using congrArg List.length hst
  have hpay : fingerprintPayload NewGrouper c1 = fingerprintPayload NewGrouper c2 := by
    unfold fingerprintPayload
    rw [het, hlen]
    apply foldl_feedFrame_congr
    rw [List.map_take, List.map_take, hst]
  unfold generateFingerprint
  rw [hpay]

/-- C9, witness: two concrete crashes differing in line and column
numbers, message, versions, platform, user, environment, timestamps and
metadata share a fingerprint. -/
theorem c9_fingerprint_projection_witness :
    c9a.stackTrace.map frameKey = c9b.stackTrace.map frameKey ∧
    generateFingerprint NewGrouper c9a = generateFingerprint NewGrouper c9b :=
  ⟨by decide, c9_fingerprint_projection c9a c9b rfl (by decide)⟩

/-! ## C1 — native frames consume fingerprint slots -/

/-- C1, counterexample: the claim says inserting a `native = true`
frame anywhere never changes the fingerprint, but the code fixes
`frameCount = min(5, len)` before skipping: prepending a native frame
to a trace of five non-native frames pushes the fifth real frame out of
the hashed window and changes the fingerprint. -/
theorem c1_native_insertion_cex :
    c1Native.native = true ∧
    generateFingerprint NewGrouper
        { c1Base with stackTrace := insertFrameAt c1Base.stackTrace 0 c1Native } ≠
      generateFingerprint NewGrouper c1Base := by
  exact ⟨rfl, by decide⟩

/-- Inserting a native frame at or past the window, or into a short
trace, leaves the hashed window's non-native frames unchanged. -/
theorem filter_take_insert (l : List StackFrame) (f : StackFrame) (i : Nat)
    (hf : f.native = true) (hi : i ≤ l.length) (hpos : 5 ≤ i ∨ l.length < 5) :
    ((insertFrameAt l i f).take 5).filter (fun x => !x.native) =
      (l.take 5).filter (fun x => !x.native) := by
  rcases hpos with h5 | hshort
  · have hlen : 5 ≤ (l.take i).length := by
      rw [List.length_take]
      omega
    unfold insertFrameAt
    rw [List.take_append_of_le_length hlen, List.take_take]
    congr 2
    omega
  · have hlen : (insertFrameAt l i f).length = l.length + 1 := by
      unfold insertFrameAt
      rw [List.length_append, List.length_take, List.length_cons, List.length_drop]
      omega
    rw [List.take_of_length_le (by omega),
        List.take_of_length_le (Nat.le_of_lt hshort)]
    unfold insertFrameAt
    rw [List.filter_append, List.filter_cons]
    simp only [hf, Bool.not_true, Bool.false_eq_true, if_false]
    rw [← List.filter_append, List.take_append_drop]

/-- C1, amended: inserting a `native = true` frame does not change the
fingerprint when the insertion position is at or beyond the frame limit
(five) or the stack trace has fewer than five frames; the fingerprint
is computed from the non-native frames among the first five frames, so
native frames inside the window consume slots and an insertion there
can change it. -/
theorem c1_native_insertion_amended (c : Crash) (f : StackFrame) (i : Nat)
    (hf : f.native = true) (hi : i ≤ c.stackTrace.length)
    (hpos : NewGrouper.FrameLimit ≤ i ∨ c.stackTrace.length < NewGrouper.FrameLimit) :
    generateFingerprint NewGrouper { c with stackTrace := insertFrameAt c.stackTrace i f } =
      generateFingerprint NewGrouper c := by
  have hproj : ({ c with stackTrace := insertFrameAt c.stackTrace i f } : Crash).stackTrace =
      insertFrameAt c.stackTrace i f := rfl
  have herr : ({ c with stackTrace := insertFrameAt c.stackTrace i f } : Crash).errorType =
      c.errorType := rfl
  have h5 : NewGrouper.FrameLimit = 5 := rfl
  have hpay : fingerprintPayload NewGrouper
      { c with stackTrace := insertFrameAt c.stackTrace i f } =
      fingerprintPayload NewGrouper c := by
    rw [fingerprintPayload_eq, fingerprintPayload_eq, hproj, herr, h5,
        filter_take_insert c.stackTrace f i hf hi (by rw [h5] at hpos; exact hpos)]
  unfold generateFingerprint
  rw [hpay]

/-- C1, witness: the amended statement at a one-frame trace with a
native frame prepended. -/
theorem c1_native_insertion_amended_witness :
    generateFingerprint NewGrouper
        { c1Short with stackTrace := insertFrameAt c1Short.stackTrace 0 c1Native } =
      generateFingerprint NewGrouper c1Short :=
  c1_native_insertion_amended c1Short c1Native 0 rfl (by decide) (Or.inr (by decide))

end Inceptor
